import Mathlib

/-!
Shallow embedding of src/components/SEOAnalysisForm.tsx.

The repository is a single React client component.  Its state is four
React useState cells (formData, isLoading, results, error); its logic is
the handleInputChange field updater, the handleSubmit async submission
routine, and conditional rendering of an error region and a result
summary.  We embed:

  * the FormData / ApiResponse record types as declared in the source;
  * JavaScript semantics the source relies on: string truthiness
    (only the empty string is falsy among strings), parseInt with the
    default-radix rules, the logical-or defaulting idiom x || d
    (falsy on NaN, 0 and the empty string), JSON.stringify of the
    formData object (insertion-ordered keys, standard string escaping),
    Response.json rejecting with a SyntaxError (an Error carrying a
    parser message) on a malformed body, and err instanceof Error;
  * handleSubmit as a list of primitive state-setting / fetch effects,
    split at its one suspension point (the awaited fetch), so that the
    mid-flight Loading state is a real state of the model;
  * the component as an event-step machine (field input events, clicks
    of the submit button, settlement of the in-flight fetch), where a
    click on the disabled button is a no-op, matching the rendered
    attribute disabled defined by isLoading.
-/

namespace SEOAnalysisForm

/-- Form state, mirroring interface FormData of the source
(url, root_domain, account_identifier, language, date_range,
start_date, end_date).  date_range is a JavaScript number that the
component only ever stores integers into (initial 30, or the
parseInt-coercion of the field input), so it is modelled as Int. -/
structure FormData where
  url : String
  root_domain : String
  account_identifier : String
  language : String
  date_range : Int
  start_date : String
  end_date : String
deriving DecidableEq, Repr

/-- Stand-in for a value of the TypeScript type unknown: the component
never inspects such values, it only passes them through. -/
abbrev JsUnknown := Unit

/-- One entry of advanced_keywords.long_tail_keywords, as declared in
interface ApiResponse of the source.  The field named exists in the
source is spelt exists_flag here because exists is reserved in Lean;
numeric JSON fields are modelled as Int. -/
structure LongTailKeyword where
  keyword : String
  score : Int
  status : String
  exists_flag : Bool
  frequency : Int
  locations : List String
  contexts : List String
  type : String
  type_explanation : String
  usage_suggestion : String
  score_explanation : String
  score_category : String
  placement_suggestions : List JsUnknown
deriving DecidableEq, Repr

/-- The advanced_keywords block of the response payload. -/
structure AdvancedKeywords where
  long_tail_keywords : Option (List LongTailKeyword)
  collocations : Option (List JsUnknown)
  question_based : Option (List JsUnknown)
  topic_based : Option (List JsUnknown)
  semantic_variations : Option (List JsUnknown)
deriving DecidableEq, Repr

/-- The data payload of a response, mirroring the data field of
interface ApiResponse.  The component reads only url, word_count and
language; the remaining blocks are opaque pass-through data. -/
structure AnalysisData where
  url : String
  word_count : Int
  language : String
  keyword_analysis : Option String
  semantic_scores : Option String
  content_structure : Option String
  readability_analysis : Option String
  sentiment_analysis : Option String
  speed_analysis : Option String
  seo_suggestions : Option String
  content_gaps : Option String
  advanced_keywords : Option AdvancedKeywords
deriving DecidableEq, Repr

/-- A well-formed (parsed) response body, mirroring interface
ApiResponse: success flag, optional data payload, optional error
string. -/
structure ApiResponse where
  success : Bool
  data : Option AnalysisData
  error : Option String
deriving DecidableEq, Repr

/-- A thrown JavaScript value as observed by the catch clause of
handleSubmit, which only distinguishes err instanceof Error (whose
message it reads) from any other thrown value. -/
inductive JsThrown where
  | error (message : String)
  | nonError
deriving DecidableEq, Repr

/-- Message extraction performed by the catch clause:
err instanceof Error ? err.message : the generic fallback string. -/
def thrownMessage : JsThrown → String
  | .error m => m
  | .nonError => "An error occurred during analysis"

deriving instance DecidableEq for Except

/-- Everything the environment decides about the awaited fetch of one
submission: either fetch itself rejects (per the Fetch standard with a
TypeError, an Error), or it resolves to a response with an ok flag
(status in the 200 range) whose body the chained response.json() call
either parses into an ApiResponse or fails on; a malformed body makes
response.json() reject with a SyntaxError, an Error whose message
describes the parse failure. -/
inductive FetchOutcome where
  | reject (e : JsThrown)
  | response (ok : Bool) (body : Except JsThrown ApiResponse)
deriving DecidableEq, Repr

/-- JavaScript logical-or defaulting on an optional string, as in
data.error || fallback: undefined and the empty string are falsy. -/
def jsOrString (o : Option String) (d : String) : String :=
  match o with
  | none => d
  | some s => if s == "" then d else s

/-- JavaScript logical-or defaulting on the result of parseInt, as in
parseInt(value) || 30: NaN (parse failure) and 0 are falsy. -/
def jsOrInt (o : Option Int) (d : Int) : Int :=
  match o with
  | none => d
  | some n => if n == 0 then d else n

/-- Decimal digit value of a character, if any. -/
def digitVal? (c : Char) : Option Nat :=
  if '0' ≤ c ∧ c ≤ '9' then some (c.toNat - 48) else none

/-- Hexadecimal digit value of a character, if any. -/
def hexVal? (c : Char) : Option Nat :=
  if '0' ≤ c ∧ c ≤ '9' then some (c.toNat - 48)
  else if 'a' ≤ c ∧ c ≤ 'f' then some (c.toNat - 87)
  else if 'A' ≤ c ∧ c ≤ 'F' then some (c.toNat - 55)
  else none

/-- Accumulate the longest prefix of digits of the given radix,
stopping at the first character that is not a digit, as parseInt
does. -/
def parseDigits (val? : Char → Option Nat) (radix : Nat) : List Char → Nat → Nat
  | [], acc => acc
  | c :: cs, acc =>
    match val? c with
    | some d => parseDigits val? radix cs (acc * radix + d)
    | none => acc

/-- Characters skipped by parseInt before the number: the JavaScript
WhiteSpace and LineTerminator characters (the ASCII ones plus NBSP,
BOM and the Unicode line separators; other rare Zs characters are not
produced by the input widgets of this form). -/
def isJsWhitespace (c : Char) : Bool :=
  c == ' ' || c.toNat == 9 || c.toNat == 10 || c.toNat == 11 ||
  c.toNat == 12 || c.toNat == 13 || c.toNat == 0xa0 ||
  c.toNat == 0xfeff || c.toNat == 0x2028 || c.toNat == 0x2029

/-- Magnitude part of parseInt after whitespace and sign have been
consumed: a 0x or 0X prefix switches to hexadecimal (requiring at
least one hex digit), otherwise the longest prefix of decimal digits
is taken; none when no digit is found (parseInt returns NaN). -/
def jsParseIntCore : List Char → Option Nat
  | '0' :: x :: rest =>
    if x == 'x' || x == 'X' then
      match rest with
      | c :: _ => if (hexVal? c).isSome then some (parseDigits hexVal? 16 rest 0) else none
      | [] => none
    else some (parseDigits digitVal? 10 ('0' :: x :: rest) 0)
  | c :: cs =>
    if (digitVal? c).isSome then some (parseDigits digitVal? 10 (c :: cs) 0) else none
  | [] => none

/-- JavaScript parseInt(value) with the radix argument omitted, on the
strings this component feeds it: skip leading whitespace, consume an
optional sign, then the magnitude per jsParseIntCore; none models a
NaN result. -/
def jsParseInt (s : String) : Option Int :=
  match s.data.dropWhile isJsWhitespace with
  | '-' :: rest => (jsParseIntCore rest).map (fun n => -(n : Int))
  | '+' :: rest => (jsParseIntCore rest).map (fun n => (n : Int))
  | cs => (jsParseIntCore cs).map (fun n => (n : Int))

/-- Lowercase hexadecimal digit character. -/
def hexDigitChar (n : Nat) : Char :=
  if n < 10 then Char.ofNat (48 + n) else Char.ofNat (87 + n)

/-- Four-digit lowercase hexadecimal rendering used by the JSON \u
escape. -/
def hex4 (n : Nat) : String :=
  String.mk [hexDigitChar (n / 4096 % 16), hexDigitChar (n / 256 % 16),
             hexDigitChar (n / 16 % 16), hexDigitChar (n % 16)]

/-- Escape of one character inside a JSON string literal, as produced
by JSON.stringify: quote and backslash are escaped, the named control
escapes are used where they exist, any other control character becomes
a \u escape, and everything else is emitted verbatim. -/
def jsonEscapeChar (c : Char) : String :=
  if c == '"' then "\\\""
  else if c == '\\' then "\\\\"
  else if c.toNat == 8 then "\\b"
  else if c.toNat == 9 then "\\t"
  else if c.toNat == 10 then "\\n"
  else if c.toNat == 12 then "\\f"
  else if c.toNat == 13 then "\\r"
  else if c.toNat < 32 then "\\u" ++ hex4 c.toNat
  else String.singleton c

/-- A JSON string literal for s, as produced by JSON.stringify. -/
def jsonQuote (s : String) : String :=
  "\"" ++ String.join (s.data.map jsonEscapeChar) ++ "\""

/-- JSON.stringify(formData): an object literal whose keys appear in
the insertion order of the FormData object, which is the declaration
order url, root_domain, account_identifier, language, date_range,
start_date, end_date; date_range is a number, all other fields are
strings. -/
def serializeFormData (fd : FormData) : String :=
  "\x7b\"url\":" ++ jsonQuote fd.url ++
  ",\"root_domain\":" ++ jsonQuote fd.root_domain ++
  ",\"account_identifier\":" ++ jsonQuote fd.account_identifier ++
  ",\"language\":" ++ jsonQuote fd.language ++
  ",\"date_range\":" ++ toString fd.date_range ++
  ",\"start_date\":" ++ jsonQuote fd.start_date ++
  ",\"end_date\":" ++ jsonQuote fd.end_date ++ "\x7d"

/-- The fixed analysis endpoint of the fetch call. -/
def analyzeEndpoint : String := "https://seo-analyzer-api-n3b8.onrender.com/analyze"

/-- The fixed validation message set when a required field is empty. -/
def validationMsg : String := "Please fill in all required fields"

/-- The fallback used by the two throw sites: data.error || this. -/
def analysisFailedMsg : String := "Analysis failed"

/-- The catch-clause fallback for a thrown value that is not an
Error. -/
def genericErrorMsg : String := "An error occurred during analysis"

/-- An HTTP request as issued by the fetch call of handleSubmit. -/
structure HttpRequest where
  url : String
  method : String
  contentType : String
  body : String
deriving DecidableEq, Repr

/-- The one request handleSubmit issues for a given form state. -/
def analyzeRequest (fd : FormData) : HttpRequest :=
  { url := analyzeEndpoint
    method := "POST"
    contentType := "application/json"
    body := serializeFormData fd }

/-- The validation guard of handleSubmit:
!formData.url || !formData.root_domain || !formData.account_identifier,
using JavaScript string truthiness (only the empty string is falsy). -/
def validationFails (fd : FormData) : Bool :=
  fd.url == "" || fd.root_domain == "" || fd.account_identifier == ""

/-- Primitive effects handleSubmit performs, in order: the React state
setters it calls and the fetch it issues. -/
inductive Effect where
  | setIsLoading (b : Bool)
  | setError (msg : String)
  | setResults (r : Option AnalysisData)
  | fetchRequest (req : HttpRequest)
deriving DecidableEq, Repr

/-- Effects of handleSubmit up to its suspension point: on a failed
validation only the error setter runs and the routine returns; on a
passed validation the Loading flag is set, error and results are
cleared, and the fetch is issued. -/
def submitPhase1 (fd : FormData) : List Effect :=
  if validationFails fd then [.setError validationMsg]
  else [.setIsLoading true, .setError "", .setResults none,
        .fetchRequest (analyzeRequest fd)]

/-- Effects of handleSubmit after the awaited fetch settles, for each
outcome.  The body is parsed first (so a malformed body throws before
the ok test), then a non-ok status throws Error(data.error ||
analysisFailedMsg), then success with a present data payload stores
the payload, and any other parsed body throws Error(data.error ||
analysisFailedMsg); the catch clause turns each thrown value into a
message via thrownMessage, and the finally clause always clears the
Loading flag last. -/
def submitPhase2 : FetchOutcome → List Effect
  | .reject e => [.setError (thrownMessage e), .setIsLoading false]
  | .response _ (.error e) => [.setError (thrownMessage e), .setIsLoading false]
  | .response ok (.ok resp) =>
    if !ok then
      [.setError (jsOrString resp.error analysisFailedMsg), .setIsLoading false]
    else if resp.success && resp.data.isSome then
      [.setResults resp.data, .setIsLoading false]
    else
      [.setError (jsOrString resp.error analysisFailedMsg), .setIsLoading false]

/-- The full effect trace of one handleSubmit run: a failed validation
returns before the fetch, otherwise both phases run in order. -/
def handleSubmitRun (fd : FormData) (w : FetchOutcome) : List Effect :=
  if validationFails fd then submitPhase1 fd
  else submitPhase1 fd ++ submitPhase2 w

/-- The requests contained in an effect trace. -/
def requestsOf (effs : List Effect) : List HttpRequest :=
  effs.filterMap fun e =>
    match e with
    | .fetchRequest r => some r
    | _ => none

/-- The component state: the four useState cells, plus
awaitingResponse, which records that the handleSubmit coroutine is
suspended at its awaited fetch (the runtime fact that a response is
still expected; it is not itself a React state cell). -/
structure ComponentState where
  formData : FormData
  isLoading : Bool
  results : Option AnalysisData
  error : String
  awaitingResponse : Bool
deriving DecidableEq, Repr

/-- Application of one effect to the component state. -/
def applyEffect (s : ComponentState) : Effect → ComponentState
  | .setIsLoading b => { s with isLoading := b }
  | .setError m => { s with error := m }
  | .setResults r => { s with results := r }
  | .fetchRequest _ => { s with awaitingResponse := true }

/-- Application of an effect trace, in order. -/
def applyEffects (s : ComponentState) (effs : List Effect) : ComponentState :=
  effs.foldl applyEffect s

/-- The initial values passed to the four useState calls. -/
def initialFormData : FormData :=
  { url := ""
    root_domain := ""
    account_identifier := ""
    language := "en"
    date_range := 30
    start_date := ""
    end_date := "" }

/-- The state of a freshly mounted component. -/
def initialState : ComponentState :=
  { formData := initialFormData
    isLoading := false
    results := none
    error := ""
    awaitingResponse := false }

/-- The handleInputChange updater: a change event from the control
whose name attribute is the given string stores the new value under
that key, coercing date_range through parseInt(value) || 30.  The
rendered controls carry exactly the seven FormData names, so no other
name ever reaches this handler; the catch-all branch keeps the state
unchanged. -/
def handleInputChange (name value : String) (prev : FormData) : FormData :=
  if name == "url" then { prev with url := value }
  else if name == "root_domain" then { prev with root_domain := value }
  else if name == "account_identifier" then { prev with account_identifier := value }
  else if name == "language" then { prev with language := value }
  else if name == "date_range" then { prev with date_range := jsOrInt (jsParseInt value) 30 }
  else if name == "start_date" then { prev with start_date := value }
  else if name == "end_date" then { prev with end_date := value }
  else prev

/-- External events the mounted component reacts to: an input change
on a named control, a click on the submit button, and the settlement
of the in-flight fetch with a given outcome. -/
inductive Event where
  | input (name value : String)
  | click
  | settle (w : FetchOutcome)
deriving DecidableEq, Repr

/-- One event step of the component, returning the next state and the
requests issued during the step.  A click is a no-op while isLoading
holds, because the submit button is rendered with
disabled set to isLoading; otherwise the click runs handleSubmit up to
its suspension point.  A settlement is delivered exactly when a fetch
is awaited, and runs the rest of handleSubmit. -/
def step (s : ComponentState) : Event → ComponentState × List HttpRequest
  | .input name value =>
    ({ s with formData := handleInputChange name value s.formData }, [])
  | .click =>
    if s.isLoading then (s, [])
    else (applyEffects s (submitPhase1 s.formData), requestsOf (submitPhase1 s.formData))
  | .settle w =>
    if s.awaitingResponse then
      (applyEffects { s with awaitingResponse := false } (submitPhase2 w), [])
    else (s, [])

/-- Run of a list of events from a state. -/
def runEvents (s : ComponentState) : List Event → ComponentState
  | [] => s
  | e :: es => runEvents (step s e).1 es

/-- A state is reachable when some event run from the freshly mounted
component produces it. -/
def Reachable (s : ComponentState) : Prop :=
  ∃ es : List Event, runEvents initialState es = s

/-- Final state of one complete submission (click through settlement)
started from a state holding the given React cells. -/
def submitResult (s : ComponentState) (w : FetchOutcome) : ComponentState :=
  applyEffects s (handleSubmitRun s.formData w)

/-- The error region renders exactly when the error string is truthy,
i.e. non-empty, and shows the error string verbatim. -/
def renderedError (s : ComponentState) : Option String :=
  if s.error == "" then none else some s.error

/-- The summary region renders exactly when results is non-null, and
shows results.url, results.word_count and results.language; React
renders the number word_count via its decimal string. -/
def renderedSummary (s : ComponentState) : Option (String × String × String) :=
  match s.results with
  | none => none
  | some r => some (r.url, toString r.word_count, r.language)

/-! Helper lemmas and concrete demonstration values shared by several
claims. -/

theorem validationFails_true_iff (fd : FormData) :
    validationFails fd = true ↔
      (fd.url = "" ∨ fd.root_domain = "" ∨ fd.account_identifier = "") := by
  simp [validationFails, or_assoc]

theorem validationFails_false_iff (fd : FormData) :
    validationFails fd = false ↔
      (fd.url ≠ "" ∧ fd.root_domain ≠ "" ∧ fd.account_identifier ≠ "") := by
  simp [validationFails, and_assoc]

theorem applyEffects_append (s : ComponentState) (l₁ l₂ : List Effect) :
    applyEffects s (l₁ ++ l₂) = applyEffects (applyEffects s l₁) l₂ := by
  simp [applyEffects]

theorem requestsOf_append (l₁ l₂ : List Effect) :
    requestsOf (l₁ ++ l₂) = requestsOf l₁ ++ requestsOf l₂ := by
  simp [requestsOf]

theorem requestsOf_submitPhase2 (w : FetchOutcome) :
    requestsOf (submitPhase2 w) = [] := by
  cases w with
  | reject e => simp [submitPhase2, requestsOf]
  | response ok body =>
    cases body with
    | error e => simp [submitPhase2, requestsOf]
    | ok resp =>
      simp only [submitPhase2]
      split <;> [skip; split] <;> simp [requestsOf]

/-- A form state with all three required fields filled in. -/
def demoFormData : FormData :=
  { url := "https://example.com/p"
    root_domain := "example.com"
    account_identifier := "acct"
    language := "en"
    date_range := 30
    start_date := ""
    end_date := "" }

/-- An idle component state holding demoFormData. -/
def demoState : ComponentState := { initialState with formData := demoFormData }

/-- A response payload used to exercise the success path. -/
def demoPayload : AnalysisData :=
  { url := "https://example.com/p"
    word_count := 7
    language := "en"
    keyword_analysis := none
    semantic_scores := none
    content_structure := none
    readability_analysis := none
    sentiment_analysis := none
    speed_analysis := none
    seo_suggestions := none
    content_gaps := none
    advanced_keywords := none }

/-- Fill the three required fields, submit, receive a successful
response holding demoPayload, then blank the url field and click
again: the final click fails validation while a result is held. -/
def demoSuccessThenInvalidTrace : List Event :=
  [.input "url" "https://example.com/p",
   .input "root_domain" "example.com",
   .input "account_identifier" "acct",
   .click,
   .settle (.response true (.ok { success := true, data := some demoPayload, error := none })),
   .input "url" "",
   .click]

/-- CLAIM C1.  For every FormInput in which at least one of url,
root_domain, or account_identifier is the empty string, triggering
submission performs no network call and sets the error state to the
fixed validation message. -/
theorem submit_with_empty_required_field (s : ComponentState) (w : FetchOutcome)
    (h : s.formData.url = "" ∨ s.formData.root_domain = "" ∨
         s.formData.account_identifier = "") :
    requestsOf (handleSubmitRun s.formData w) = [] ∧
    (submitResult s w).error = "Please fill in all required fields" := by
  have hv : validationFails s.formData = true := (validationFails_true_iff _).mpr h
  refine ⟨?_, ?_⟩
  · simp [handleSubmitRun, submitPhase1, hv, requestsOf]
  · simp [submitResult, handleSubmitRun, submitPhase1, hv, applyEffects, applyEffect,
          validationMsg]

/-- Witness for submit_with_empty_required_field at the freshly
mounted (all-empty) form and an arbitrary outcome. -/
theorem submit_with_empty_required_field_witness :
    requestsOf (handleSubmitRun initialState.formData (.reject .nonError)) = [] ∧
    (submitResult initialState (.reject .nonError)).error =
      "Please fill in all required fields" :=
  submit_with_empty_required_field initialState (.reject .nonError) (Or.inl rfl)

/-- CLAIM C2.  For every FormInput with url, root_domain and
account_identifier all non-empty, triggering submission sets the
Loading flag, clears the prior result and error states, and issues
exactly one POST request to the fixed analysis endpoint whose JSON
body is the serialization of the full FormInput (keys url,
root_domain, account_identifier, language, date_range, start_date,
end_date in that order). -/
theorem submit_with_valid_fields_posts_once (fd : FormData) (w : FetchOutcome)
    (h1 : fd.url ≠ "") (h2 : fd.root_domain ≠ "") (h3 : fd.account_identifier ≠ "") :
    (handleSubmitRun fd w).take 4 =
      [Effect.setIsLoading true, Effect.setError "", Effect.setResults none,
       Effect.fetchRequest (analyzeRequest fd)] ∧
    requestsOf (handleSubmitRun fd w) = [analyzeRequest fd] ∧
    (analyzeRequest fd).method = "POST" ∧
    (analyzeRequest fd).url = analyzeEndpoint ∧
    (analyzeRequest fd).body = serializeFormData fd := by
  have hv : validationFails fd = false := (validationFails_false_iff _).mpr ⟨h1, h2, h3⟩
  refine ⟨?_, ?_, rfl, rfl, rfl⟩
  · simp [handleSubmitRun, submitPhase1, hv]
  · rw [handleSubmitRun, if_neg (by simp [hv]), requestsOf_append,
        requestsOf_submitPhase2]
    simp [submitPhase1, hv, requestsOf]

/-- Witness for submit_with_valid_fields_posts_once at demoFormData
and a rejected fetch. -/
theorem submit_with_valid_fields_posts_once_witness :
    (handleSubmitRun demoFormData (.reject .nonError)).take 4 =
      [Effect.setIsLoading true, Effect.setError "", Effect.setResults none,
       Effect.fetchRequest (analyzeRequest demoFormData)] ∧
    requestsOf (handleSubmitRun demoFormData (.reject .nonError)) =
      [analyzeRequest demoFormData] ∧
    (analyzeRequest demoFormData).method = "POST" ∧
    (analyzeRequest demoFormData).url = analyzeEndpoint ∧
    (analyzeRequest demoFormData).body = serializeFormData demoFormData :=
  submit_with_valid_fields_posts_once demoFormData (.reject .nonError)
    (by decide) (by decide) (by decide)

/-- Final state of a submission that passes validation, for every
fetch outcome: the only suspended-state field the fold leaves behind
is awaitingResponse (cleared by the settle step of the machine, not by
the effect trace itself). -/
theorem submitResult_valid_eq (s : ComponentState) (w : FetchOutcome)
    (hv : validationFails s.formData = false) :
    submitResult s w =
      match w with
      | .reject e =>
        { s with isLoading := false, results := none,
                 error := thrownMessage e, awaitingResponse := true }
      | .response _ (.error e) =>
        { s with isLoading := false, results := none,
                 error := thrownMessage e, awaitingResponse := true }
      | .response ok (.ok resp) =>
        if !ok then
          { s with isLoading := false, results := none,
                   error := jsOrString resp.error analysisFailedMsg,
                   awaitingResponse := true }
        else if resp.success && resp.data.isSome then
          { s with isLoading := false, results := resp.data,
                   error := "", awaitingResponse := true }
        else
          { s with isLoading := false, results := none,
                   error := jsOrString resp.error analysisFailedMsg,
                   awaitingResponse := true } := by
  rw [submitResult, handleSubmitRun, if_neg (by simp [hv]), applyEffects_append]
  cases w with
  | reject e => simp [submitPhase1, hv, submitPhase2, applyEffects, applyEffect]
  | response ok body =>
    cases body with
    | error e => simp [submitPhase1, hv, submitPhase2, applyEffects, applyEffect]
    | ok resp =>
      simp only [submitPhase1, hv, Bool.false_eq_true, if_false, submitPhase2]
      split
      · simp [applyEffects, applyEffect]
      · split <;> simp [applyEffects, applyEffect]

/-- CLAIM C3, counterexample.  A well-formed response with
success:false that carries the server error string "" (present but
empty) renders the fallback "Analysis failed", not the supplied
string: data.error || fallback treats the empty string as absent. -/
theorem response_failure_empty_error_string_cex :
    renderedError (submitResult demoState
      (.response true (.ok { success := false, data := none, error := some "" }))) =
      some "Analysis failed" ∧
    "Analysis failed" ≠ "" := by
  exact ⟨rfl, by decide⟩

/-- CLAIM C3, amended.  For every well-formed response with a non-ok
HTTP status or a false success flag, submission ends un-loading with
no result and an error equal to the server-supplied error string when
that string is present and non-empty, else the fallback
"Analysis failed". -/
theorem response_failure_error_selection (s : ComponentState) (ok : Bool)
    (resp : ApiResponse)
    (hv : validationFails s.formData = false)
    (hfail : ok = false ∨ resp.success = false) :
    (submitResult s (.response ok (.ok resp))).isLoading = false ∧
    (submitResult s (.response ok (.ok resp))).results = none ∧
    (∀ m, resp.error = some m → m ≠ "" →
      (submitResult s (.response ok (.ok resp))).error = m) ∧
    ((resp.error = none ∨ resp.error = some "") →
      (submitResult s (.response ok (.ok resp))).error = "Analysis failed") := by
  have hbranch :
      submitResult s (.response ok (.ok resp)) =
        { s with isLoading := false, results := none,
                 error := jsOrString resp.error analysisFailedMsg,
                 awaitingResponse := true } := by
    rw [submitResult_valid_eq s _ hv]
    cases ok with
    | false => rfl
    | true =>
      rcases hfail with h | h
      · exact absurd h (by simp)
      · simp [h]
  rw [hbranch]
  refine ⟨rfl, rfl, ?_, ?_⟩
  · intro m hm hne
    simp [hm, jsOrString, hne]
  · rintro (h | h) <;> simp [h, jsOrString, analysisFailedMsg]

/-- Witness for response_failure_error_selection at a success:false
response carrying a non-empty server error string. -/
theorem response_failure_error_selection_witness :
    (submitResult demoState
      (.response true (.ok { success := false, data := none, error := some "quota" }))).error =
      "quota" :=
  (response_failure_error_selection demoState true
      { success := false, data := none, error := some "quota" }
      (by decide) (Or.inr rfl)).2.2.1 "quota" rfl (by decide)

/-- CLAIM C4, counterexample.  A malformed body makes response.json()
reject with a SyntaxError, which is an Error, so the catch clause
renders the parser message itself, not the generic fallback
"An error occurred during analysis" (nor "Analysis failed"). -/
theorem malformed_body_parse_message_cex :
    renderedError (submitResult demoState
      (.response true (.error (.error "Unexpected token < in JSON at position 0")))) =
      some "Unexpected token < in JSON at position 0" ∧
    "Unexpected token < in JSON at position 0" ≠ "An error occurred during analysis" ∧
    "Unexpected token < in JSON at position 0" ≠ "Analysis failed" := by
  exact ⟨rfl, by decide, by decide⟩

/-- CLAIM C4, amended.  For every response whose body fails to parse,
submission ends un-loading with no result, and its error message is
the message of the thrown parse exception when that value is an Error
(as a SyntaxError always is), and the generic fallback
"An error occurred during analysis" only for a non-Error thrown
value. -/
theorem malformed_body_failure_message (s : ComponentState) (ok : Bool)
    (e : JsThrown)
    (hv : validationFails s.formData = false) :
    (submitResult s (.response ok (.error e))).isLoading = false ∧
    (submitResult s (.response ok (.error e))).results = none ∧
    (submitResult s (.response ok (.error e))).error = thrownMessage e := by
  rw [submitResult_valid_eq s _ hv]
  exact ⟨rfl, rfl, rfl⟩

/-- Witness for malformed_body_failure_message at a concrete parse
failure. -/
theorem malformed_body_failure_message_witness :
    (submitResult demoState
      (.response true (.error (.error "Unexpected end of JSON input")))).error =
      thrownMessage (.error "Unexpected end of JSON input") :=
  (malformed_body_failure_message demoState true
      (.error "Unexpected end of JSON input") (by decide)).2.2

/-- CLAIM C5, counterexample.  A well-formed response with
success:true and no data payload but a non-empty error string renders
that string, not the fallback: the failing branch throws
Error(data.error || fallback). -/
theorem success_without_payload_server_error_cex :
    renderedError (submitResult demoState
      (.response true (.ok { success := true, data := none, error := some "quota exceeded" }))) =
      some "quota exceeded" ∧
    "quota exceeded" ≠ "Analysis failed" ∧
    "quota exceeded" ≠ "An error occurred during analysis" := by
  exact ⟨rfl, by decide, by decide⟩

/-- CLAIM C5, amended.  For every well-formed ok response with
success:true and no data payload, submission ends un-loading with no
result; the error is the fallback "Analysis failed" unless the
response carries a non-empty error string, in which case that string
is shown. -/
theorem success_without_payload_failure (s : ComponentState) (resp : ApiResponse)
    (hv : validationFails s.formData = false)
    (hs : resp.success = true) (hd : resp.data = none) :
    (submitResult s (.response true (.ok resp))).isLoading = false ∧
    (submitResult s (.response true (.ok resp))).results = none ∧
    (∀ m, resp.error = some m → m ≠ "" →
      (submitResult s (.response true (.ok resp))).error = m) ∧
    ((resp.error = none ∨ resp.error = some "") →
      (submitResult s (.response true (.ok resp))).error = "Analysis failed") := by
  have hbranch :
      submitResult s (.response true (.ok resp)) =
        { s with isLoading := false, results := none,
                 error := jsOrString resp.error analysisFailedMsg,
                 awaitingResponse := true } := by
    rw [submitResult_valid_eq s _ hv]
    simp [hd]
  rw [hbranch]
  refine ⟨rfl, rfl, ?_, ?_⟩
  · intro m hm hne
    simp [hm, jsOrString, hne]
  · rintro (h | h) <;> simp [h, jsOrString, analysisFailedMsg]

/-- Witness for success_without_payload_failure at a response with no
error string: the fallback is shown. -/
theorem success_without_payload_failure_witness :
    (submitResult demoState
      (.response true (.ok { success := true, data := none, error := none }))).error =
      "Analysis failed" :=
  (success_without_payload_failure demoState
      { success := true, data := none, error := none }
      (by decide) rfl rfl).2.2.2 (Or.inl rfl)

/-- Invariant maintained by every event step: the suspension marker
agrees with the Loading flag; a loading state holds no result and no
error; and a held result coexists with an error message only when
that message is the fixed validation message. -/
def StateInvariant (s : ComponentState) : Prop :=
  s.awaitingResponse = s.isLoading ∧
  (s.isLoading = true → s.results = none ∧ s.error = "") ∧
  (s.results.isSome = true → s.error ≠ "" → s.error = validationMsg)

theorem stateInvariant_step (s : ComponentState) (e : Event)
    (h : StateInvariant s) : StateInvariant (step s e).1 := by
  obtain ⟨h1, h2, h3⟩ := h
  cases e with
  | input name value => exact ⟨h1, h2, h3⟩
  | click =>
    by_cases hl : s.isLoading = true
    · simpa [step, hl] using ⟨h1, h2, h3⟩
    · have hl' : s.isLoading = false := by simpa using hl
      by_cases hv : validationFails s.formData = true
      · have hstep : (step s Event.click).1 = { s with error := validationMsg } := by
          simp [step, hl', submitPhase1, hv, applyEffects, applyEffect]
        rw [hstep]
        refine ⟨h1, ?_, ?_⟩
        · intro hcontr
          simp only at hcontr
          exact absurd hcontr (by simp [hl'])
        · intro _ _
          rfl
      · have hv' : validationFails s.formData = false := by simpa using hv
        have hstep : (step s Event.click).1 =
            { s with isLoading := true, error := "", results := none,
                     awaitingResponse := true } := by
          simp [step, hl', submitPhase1, hv', applyEffects, applyEffect]
        rw [hstep]
        exact ⟨rfl, fun _ => ⟨rfl, rfl⟩, by intro hcontr; simp at hcontr⟩
  | settle w =>
    by_cases ha : s.awaitingResponse = true
    · have hl : s.isLoading = true := h1 ▸ ha
      obtain ⟨hres, herr⟩ := h2 hl
      have hstep : (step s (Event.settle w)).1 =
          applyEffects { s with awaitingResponse := false } (submitPhase2 w) := by
        simp [step, ha]
      rw [hstep]
      cases w with
      | reject e =>
        refine ⟨rfl, ?_, ?_⟩
        · intro hcontr; simp [submitPhase2, applyEffects, applyEffect] at hcontr
        · intro hcontr _
          simp [submitPhase2, applyEffects, applyEffect, hres] at hcontr
      | response ok body =>
        cases body with
        | error e =>
          refine ⟨rfl, ?_, ?_⟩
          · intro hcontr; simp [submitPhase2, applyEffects, applyEffect] at hcontr
          · intro hcontr _
            simp [submitPhase2, applyEffects, applyEffect, hres] at hcontr
        | ok resp =>
          simp only [submitPhase2]
          split
          · refine ⟨rfl, ?_, ?_⟩
            · intro hcontr; simp [applyEffects, applyEffect] at hcontr
            · intro hcontr _
              simp [applyEffects, applyEffect, hres] at hcontr
          · split
            · refine ⟨rfl, ?_, ?_⟩
              · intro hcontr; simp [applyEffects, applyEffect] at hcontr
              · intro _ hcontr
                simp [applyEffects, applyEffect, herr] at hcontr
            · refine ⟨rfl, ?_, ?_⟩
              · intro hcontr; simp [applyEffects, applyEffect] at hcontr
              · intro hcontr _
                simp [applyEffects, applyEffect, hres] at hcontr
    · have ha' : s.awaitingResponse = false := by simpa using ha
      simpa [step, ha'] using ⟨h1, h2, h3⟩

theorem stateInvariant_runEvents (s : ComponentState) (es : List Event)
    (h : StateInvariant s) : StateInvariant (runEvents s es) := by
  induction es generalizing s with
  | nil => exact h
  | cons e es ih => exact ih _ (stateInvariant_step s e h)

theorem stateInvariant_initial : StateInvariant initialState := by
  refine ⟨rfl, ?_, ?_⟩ <;> intro h <;> simp [initialState] at h

/-- CLAIM C6, counterexample.  A reachable state holds a Success
result and a non-empty Failure message at the same time: after a
successful submission, blanking the url field and clicking again sets
the validation error without clearing the held result, so the four
RequestOutcome variants are not mutually exclusive. -/
theorem exclusivity_violation_cex :
    (runEvents initialState demoSuccessThenInvalidTrace).results = some demoPayload ∧
    (runEvents initialState demoSuccessThenInvalidTrace).error = validationMsg ∧
    (runEvents initialState demoSuccessThenInvalidTrace).isLoading = false ∧
    validationMsg ≠ "" := by
  refine ⟨rfl, rfl, rfl, by decide⟩

/-- CLAIM C6, amended.  At every reachable state, the Loading flag
excludes both a held result and a non-empty error; a held result and
a non-empty error can coexist, but only when the error is the fixed
validation message left by a rejected re-submission. -/
theorem reachable_state_exclusivity (s : ComponentState) (h : Reachable s) :
    (s.isLoading = true → s.results = none ∧ s.error = "") ∧
    (s.results.isSome = true → s.error ≠ "" → s.error = validationMsg) := by
  obtain ⟨es, rfl⟩ := h
  have hinv := stateInvariant_runEvents initialState es stateInvariant_initial
  exact ⟨hinv.2.1, hinv.2.2⟩

/-- Witness for reachable_state_exclusivity at the end state of the
demonstration trace. -/
theorem reachable_state_exclusivity_witness :
    ((runEvents initialState demoSuccessThenInvalidTrace).isLoading = true →
      (runEvents initialState demoSuccessThenInvalidTrace).results = none ∧
      (runEvents initialState demoSuccessThenInvalidTrace).error = "") ∧
    ((runEvents initialState demoSuccessThenInvalidTrace).results.isSome = true →
      (runEvents initialState demoSuccessThenInvalidTrace).error ≠ "" →
      (runEvents initialState demoSuccessThenInvalidTrace).error = validationMsg) :=
  reachable_state_exclusivity _ ⟨demoSuccessThenInvalidTrace, rfl⟩

/-- CLAIM C7.  In every state where the Loading flag is true, a click
of the submit trigger has no effect at all: the state is unchanged and
no request is issued, because the button is rendered with disabled
set to isLoading. -/
theorem click_while_loading_noop (s : ComponentState) (h : s.isLoading = true) :
    step s Event.click = (s, []) := by
  simp [step, h]

/-- Events that fill the form and click once, leaving a submission in
flight. -/
def demoMidFlightTrace : List Event :=
  [.input "url" "https://example.com/p",
   .input "root_domain" "example.com",
   .input "account_identifier" "acct",
   .click]

/-- Witness for click_while_loading_noop at the reachable mid-flight
state of demoMidFlightTrace. -/
theorem click_while_loading_noop_witness :
    step (runEvents initialState demoMidFlightTrace) Event.click =
      (runEvents initialState demoMidFlightTrace, []) :=
  click_while_loading_noop _ rfl

/-- CLAIM C8, counterexample.  Typing 0 into the date_range field is a
successful integer parse, yet the stored value is 30, because
parseInt(value) || 30 treats the parsed 0 as falsy. -/
theorem date_range_zero_cex :
    jsParseInt "0" = some 0 ∧
    (handleInputChange "date_range" "0" demoFormData).date_range = 30 ∧
    (30 : Int) ≠ 0 := by
  refine ⟨by decide, by decide, by decide⟩

/-- CLAIM C8, amended.  For every string typed into the date_range
field, the stored value is its parseInt parse when that parse succeeds
with a non-zero value, and 30 when the parse fails or yields 0; the
out-of-range value 400 is accepted and stored unchanged (no
client-side upper bound beyond the advisory widget max). -/
theorem date_range_coercion (fd : FormData) (v : String) :
    ((jsParseInt v = none ∨ jsParseInt v = some 0) →
      (handleInputChange "date_range" v fd).date_range = 30) ∧
    (∀ n : Int, jsParseInt v = some n → n ≠ 0 →
      (handleInputChange "date_range" v fd).date_range = n) ∧
    (handleInputChange "date_range" "400" fd).date_range = 400 := by
  have hset : ∀ w : String, handleInputChange "date_range" w fd =
      { fd with date_range := jsOrInt (jsParseInt w) 30 } := fun w => rfl
  refine ⟨?_, ?_, ?_⟩
  · rintro (h | h) <;> rw [hset] <;> simp [h, jsOrInt]
  · intro n hn hne
    rw [hset]
    simp [hn, jsOrInt, hne]
  · rw [hset]
    show jsOrInt (jsParseInt "400") 30 = 400
    decide

/-- Witness for date_range_coercion: a partial numeric prefix parses
and is stored. -/
theorem date_range_coercion_witness :
    (handleInputChange "date_range" "7abc" demoFormData).date_range = 7 :=
  (date_range_coercion demoFormData "7abc").2.1 7 (by decide) (by decide)

/-- CLAIM C9.  For every successful submission, the held result is
exactly the returned data payload, and the rendered summary shows its
url, word_count and language fields verbatim (the number rendered via
its decimal string). -/
theorem success_renders_payload_verbatim (s : ComponentState) (d : AnalysisData)
    (e : Option String)
    (hv : validationFails s.formData = false) :
    (submitResult s (.response true (.ok { success := true, data := some d, error := e }))).results =
      some d ∧
    renderedSummary
      (submitResult s (.response true (.ok { success := true, data := some d, error := e }))) =
      some (d.url, toString d.word_count, d.language) := by
  have hbranch :
      submitResult s (.response true (.ok { success := true, data := some d, error := e })) =
        { s with isLoading := false, results := some d, error := "",
                 awaitingResponse := true } := by
    rw [submitResult_valid_eq s _ hv]
    simp
  rw [hbranch]
  exact ⟨rfl, rfl⟩

/-- Witness for success_renders_payload_verbatim at demoPayload. -/
theorem success_renders_payload_verbatim_witness :
    (submitResult demoState
      (.response true (.ok { success := true, data := some demoPayload, error := none }))).results =
      some demoPayload ∧
    renderedSummary
      (submitResult demoState
        (.response true (.ok { success := true, data := some demoPayload, error := none }))) =
      some (demoPayload.url, toString demoPayload.word_count, demoPayload.language) :=
  success_renders_payload_verbatim demoState demoPayload none (by decide)

/-- An idle state holding a previous Success result whose url field
has since been blanked. -/
def demoHeldResultState : ComponentState :=
  { formData := { demoFormData with url := "" }
    isLoading := false
    results := some demoPayload
    error := ""
    awaitingResponse := false }

/-- CLAIM C10.  A click that fails validation changes only the error
cell: form fields, Loading flag, suspension marker and any held
result are untouched, no request is issued, the summary region keeps
rendering the prior result, and the error region shows the validation
message alongside it. -/
theorem validation_failure_frame (s : ComponentState)
    (hl : s.isLoading = false)
    (hv : s.formData.url = "" ∨ s.formData.root_domain = "" ∨
          s.formData.account_identifier = "") :
    step s Event.click = ({ s with error := validationMsg }, []) ∧
    (step s Event.click).1.formData = s.formData ∧
    (step s Event.click).1.isLoading = s.isLoading ∧
    (step s Event.click).1.results = s.results ∧
    (step s Event.click).1.awaitingResponse = s.awaitingResponse ∧
    renderedSummary (step s Event.click).1 = renderedSummary s ∧
    renderedError (step s Event.click).1 = some validationMsg := by
  have hv' : validationFails s.formData = true := (validationFails_true_iff _).mpr hv
  have hstep : step s Event.click = ({ s with error := validationMsg }, []) := by
    simp [step, hl, submitPhase1, hv', applyEffects, applyEffect, requestsOf]
  rw [hstep]
  refine ⟨rfl, rfl, rfl, rfl, rfl, rfl, ?_⟩
  simp [renderedError, validationMsg]

/-- Witness for validation_failure_frame at a state holding a prior
result: the result stays held and rendered next to the validation
error. -/
theorem validation_failure_frame_witness :
    step demoHeldResultState Event.click =
      ({ demoHeldResultState with error := validationMsg }, []) ∧
    (step demoHeldResultState Event.click).1.formData = demoHeldResultState.formData ∧
    (step demoHeldResultState Event.click).1.isLoading = demoHeldResultState.isLoading ∧
    (step demoHeldResultState Event.click).1.results = demoHeldResultState.results ∧
    (step demoHeldResultState Event.click).1.awaitingResponse =
      demoHeldResultState.awaitingResponse ∧
    renderedSummary (step demoHeldResultState Event.click).1 =
      renderedSummary demoHeldResultState ∧
    renderedError (step demoHeldResultState Event.click).1 = some validationMsg :=
  validation_failure_frame demoHeldResultState rfl (Or.inl rfl)

end SEOAnalysisForm
